import Mathlib

/-!
Shallow embedding of the job-status polling loop of the Processing view
(src/src/pages/Dashboard.tsx, `pollStatus`, `steps`, the mount effect and
the Failed-view Retry button), together with theorems settling the frozen
claims about it.

Conventions of the embedding:
* JSON fields that may be absent are `Option`; JavaScript truthiness of a
  string is "present and non-empty", of a number "present and non-zero".
* `localStorage.getItem("retryCount")` is modelled as `Option Nat`: the code
  only ever stores the decimal rendering of a natural number, so every
  reachable stored value is a number, and `getItem(...) || "0"` followed by
  `parseInt` is `Option.getD 0`.
* One invocation of the async `pollStatus` is a pure function from its
  inputs (the navigation state, the stored retry counter, and the outcome
  of the fetch) to a record of the effects it performs.
* A thrown JavaScript exception is `Option String`: `some m` when the value
  is an `Error` instance with message `m` (the `instanceof Error` test in
  the catch block), `none` for a non-`Error` throw.
-/

/-- JavaScript truthiness of an optional string: absent and the empty
string are falsy. -/
def jsTruthyStr : Option String → Bool
  | none => false
  | some s => !(s = "")

/-- JavaScript `v || d` for an optional string `v`. -/
def jsOrStr (v : Option String) (d : String) : String :=
  match v with
  | none => d
  | some s => if s = "" then d else s

/-- JavaScript `v || d` for an optional integer `v` (0 is falsy). -/
def jsOrInt (v : Option Int) (d : Int) : Int :=
  match v with
  | none => d
  | some n => if n = 0 then d else n

/-- String interpolation of a possibly-absent JSON number, as JavaScript
template literals render it. -/
def jsShowOptInt : Option Int → String
  | none => "undefined"
  | some n => toString n

/-- Element of the terminal `questions_preview` payload. The poller passes
these through untouched; the fields follow the Question entity of the data
model. -/
structure Question where
  id : Int
  question : String
  options : List (String × String)
  correct_answer : String
  explanation : String
  topic : String
deriving DecidableEq, Repr

/-- The navigation state handed to the Processing view
(`location.state as ProcessingState`). -/
structure ProcessingState where
  filename : String
  questionLanguage : String
  explanationLanguage : String
  numberOfQuestions : String
  outputFormat : String
  jobId : String
deriving DecidableEq, Repr

/-- JSON body returned by `GET {base}/jobs/{jobId}`; every field may be
absent. -/
structure JobData where
  status : Option String
  progress : Option Int
  step : Option Int
  eta : Option Int
  logs : Option (List String)
  error : Option String
  questions_generated : Option Int
  topics_detected : Option Int
  questions_preview : Option (List Question)
deriving DecidableEq, Repr

/-- Outcome of the fetch in one poll cycle. `ok` is a 2xx response with a
parsed body. `thrown` covers everything the catch block sees: a non-ok
response (the code throws `Error("Failed to fetch job status")`), a network
error, or a JSON parse error; the payload is the message when the thrown
value is an `Error` instance. -/
inductive FetchResult
  | ok (data : JobData)
  | thrown (e : Option String)
deriving DecidableEq, Repr

/-- Payload of `navigate("/results", { state: ... })`: the spread of the
incoming navigation state plus the three result fields. -/
structure ResultsPayload where
  filename : String
  questionLanguage : String
  explanationLanguage : String
  numberOfQuestions : String
  outputFormat : String
  jobId : String
  questionsGenerated : Int
  topicsDetected : Int
  questionsPreview : List Question
deriving DecidableEq, Repr

/-- Navigation transitions the poll cycle can emit. -/
inductive Nav
  | dashboard
  | results (payload : ResultsPayload)
deriving DecidableEq, Repr

/-- Observable effects of one invocation of `pollStatus`.
`retryWrite` is the value written by `localStorage.setItem("retryCount", ...)`
during the cycle (`none` when the cycle never writes); `storageAfter` is the
stored counter once the cycle is over (`none` when absent/removed).
`backoffWaitMs` is the awaited backoff sleep; `scheduledNextMs` is the delay
of the `setTimeout(() => pollStatus(), ...)` continuation the cycle leaves
pending. `fetched` records whether a request to the backend was issued. -/
structure PollEffects where
  fetched : Bool
  navigatedTo : Option Nav
  errorSet : Option String
  logsAppended : List String
  progressSet : Option Int
  stepSet : Option Int
  etaSet : Option Int
  backoffWaitMs : Option Nat
  scheduledNextMs : Option Nat
  retryWrite : Option Nat
  storageAfter : Option Nat
deriving DecidableEq, Repr

/-- Effect record with nothing done and the stored counter untouched. -/
def noEffects (storage : Option Nat) : PollEffects :=
  { fetched := false, navigatedTo := none, errorSet := none, logsAppended := [],
    progressSet := none, stepSet := none, etaSet := none,
    backoffWaitMs := none, scheduledNextMs := none,
    retryWrite := none, storageAfter := storage }

/-- The derived log line of a successful cycle:
`Status: ${data.status || "unknown"} - ${data.progress}% complete`, then
` - Step ${data.step}` when `data.step` is truthy, then
` - Last log: ...` when `data.logs` is a non-empty array. -/
def statusLogLine (data : JobData) : String :=
  let base := "Status: " ++ jsOrStr data.status "unknown" ++ " - " ++
    jsShowOptInt data.progress ++ "% complete"
  let withStep :=
    match data.step with
    | some n => if n = 0 then base else base ++ " - Step " ++ toString n
    | none => base
  match data.logs with
  | some l =>
      if h : l ≠ [] then withStep ++ " - Last log: " ++ l.getLast h
      else withStep
  | none => withStep

/-- One invocation of the async `pollStatus` closure
(src/src/pages/Dashboard.tsx lines 484-566), as a pure function of the
navigation state, the stored retry counter, and the fetch outcome. -/
def pollStatus (state : Option ProcessingState) (storage : Option Nat)
    (fetch : FetchResult) : PollEffects :=
  -- `if (!state?.jobId) { console.error(...); navigate("/dashboard"); return; }`
  match state with
  | none => { noEffects storage with navigatedTo := some .dashboard }
  | some st =>
    if st.jobId = "" then
      { noEffects storage with navigatedTo := some .dashboard }
    else
    match fetch with
    | .ok data =>
      let statusLog := statusLogLine data
      if data.status = some "completed" ∨ data.status = some "error" then
        if data.status = some "error" then
          -- `setError(data.error || "An error occurred"); setLogs(...); return;`
          let msg := jsOrStr data.error "An error occurred"
          { noEffects storage with
            fetched := true
            errorSet := some msg
            logsAppended := [statusLog, msg] }
        else
          -- `navigate("/results", { state: { ...state, jobId, ... } }); return;`
          { noEffects storage with
            fetched := true
            logsAppended := [statusLog]
            navigatedTo := some (.results
              { filename := st.filename
                questionLanguage := st.questionLanguage
                explanationLanguage := st.explanationLanguage
                numberOfQuestions := st.numberOfQuestions
                outputFormat := st.outputFormat
                jobId := st.jobId
                questionsGenerated := jsOrInt data.questions_generated 0
                topicsDetected := jsOrInt data.topics_detected 0
                questionsPreview := data.questions_preview.getD [] }) }
      else
        -- `setProgress(...); setCurrentStep(...); setEstimatedTime(...);`
        -- `setTimeout(() => pollStatus(), 2000);`
        { noEffects storage with
          fetched := true
          logsAppended := [statusLog]
          progressSet := some (jsOrInt data.progress 0)
          stepSet := some (jsOrInt data.step 0)
          etaSet := some (jsOrInt data.eta 0)
          scheduledNextMs := some 2000 }
    | .thrown e =>
      -- catch block: read counter, increment, store; fail out at >= 5,
      -- otherwise sleep 2^n seconds and reschedule at +2000 ms.
      let currentRetry := storage.getD 0 + 1
      if currentRetry ≥ 5 then
        let msg := match e with
          | some m => m
          | none => "An error occurred"
        { noEffects storage with
          fetched := true
          errorSet := some msg
          logsAppended := [msg]
          retryWrite := some currentRetry
          storageAfter := none }
      else
        { noEffects storage with
          fetched := true
          retryWrite := some currentRetry
          storageAfter := some currentRetry
          backoffWaitMs := some (2 ^ currentRetry * 1000)
          scheduledNextMs := some 2000 }

/-- Displayed status of a pipeline stage. -/
inductive StageStatus
  | pending
  | inProgress
  | completed
deriving DecidableEq, Repr

/-- Status fields of the five-element `steps` array of the Processing view
(src/src/pages/Dashboard.tsx lines 446-482), in array order
upload, extract, analyze, generate, finalize, as a function of the
`currentStep` component state. -/
def stageStatuses (currentStep : Int) : List StageStatus :=
  [ StageStatus.completed,
    if currentStep ≥ 1 then .completed
      else if currentStep = 0 then .inProgress else .pending,
    if currentStep ≥ 2 then .completed
      else if currentStep = 1 then .inProgress else .pending,
    if currentStep ≥ 3 then .completed
      else if currentStep = 2 then .inProgress else .pending,
    if currentStep ≥ 4 then .completed
      else if currentStep = 3 then .inProgress else .pending ]

/-- Stage status as the spec words it, for comparison with the code:
index below the step is completed, index equal to the step is in progress,
index above the step is pending. -/
def specStageStatus (s i : Int) : StageStatus :=
  if i < s then .completed else if i = s then .inProgress else .pending

/-- Component state of the Processing view that the Failed-view Retry
button can touch. -/
structure CompState where
  error : Option String
  logs : List String
  retryStorage : Option Nat
deriving DecidableEq, Repr

/-- Effect of the Retry button of the Failed view
(src/src/pages/Dashboard.tsx lines 592-601):
`setError(null); setLogs([]); pollStatus();`. Returns the updated
component state and whether polling was re-entered. The handler performs
no write to the stored retry counter. -/
def retryClick (s : CompState) : CompState × Bool :=
  ({ s with error := none, logs := [] }, true)

/-- Timer delays the mount effect cleanup clears on teardown
(src/src/pages/Dashboard.tsx lines 568-576): the effect invokes
`pollStatus()` discarding the returned promise, so the cleanup closures
built inside `pollStatus` are never run, and the cleanup the effect itself
returns has an empty body. Nothing is cleared. -/
def effectCleanupClearedTimers : List Nat := []

/-- Timer delays still pending when the view is torn down right after the
given cycle resolved: everything the cycle scheduled minus what the effect
cleanup clears. -/
def timersAfterTeardown (eff : PollEffects) : List Nat :=
  eff.scheduledNextMs.toList.filter
    (fun d => !effectCleanupClearedTimers.contains d)

/-! Concrete sample inputs used by counterexamples and witnesses. -/

/-- Sample navigation state with job id abc123. -/
def sampleState : ProcessingState :=
  { filename := "notes.pdf", questionLanguage := "en",
    explanationLanguage := "en", numberOfQuestions := "10",
    outputFormat := "pdf", jobId := "abc123" }

/-- Empty snapshot to override fields on. -/
def emptyData : JobData :=
  { status := none, progress := none, step := none, eta := none,
    logs := none, error := none, questions_generated := none,
    topics_detected := none, questions_preview := none }

/-- In-progress snapshot of the spec scenario: progress 40, step 2, eta 90. -/
def samplePending : JobData :=
  { emptyData with
    status := some "in-progress"
    progress := some 40
    step := some 2
    eta := some 90 }

/-- Backend-error snapshot with a present, non-empty error message. -/
def sampleBackendError : JobData :=
  { emptyData with
    status := some "error"
    error := some "disk full" }

/-- Backend-error snapshot whose error field is present but empty. -/
def sampleEmptyError : JobData :=
  { emptyData with
    status := some "error"
    error := some "" }

/-- Sample element of a question preview. -/
def sampleQuestion : Question :=
  { id := 1, question := "What is polling?",
    options := [("A", "waiting"), ("B", "asking repeatedly")],
    correct_answer := "B", explanation := "The client asks repeatedly.",
    topic := "networking" }

/-- Completed snapshot carrying all three result fields. -/
def sampleCompleted : JobData :=
  { emptyData with
    status := some "completed"
    questions_generated := some 12
    topics_detected := some 3
    questions_preview := some [sampleQuestion] }

/-- Payload of a Results navigation, when the given transition is one. -/
def navResultsPayload : Option Nav → Option ResultsPayload
  | some (.results p) => some p
  | _ => none

/-- Completed snapshot with all three result fields absent. -/
def sampleCompletedBare : JobData :=
  { emptyData with status := some "completed" }

/-- Completed snapshot with only the topics_detected field absent. -/
def sampleCompletedMixed : JobData :=
  { emptyData with
    status := some "completed"
    questions_generated := some 7
    questions_preview := some [sampleQuestion] }

/-- Component state of a Failed view reached through a backend-reported
error after three transport failures: the stored counter is still 3. -/
def sampleFailedComp : CompState :=
  { error := some "disk full", logs := ["log"], retryStorage := some 3 }

/-- C1: a poll cycle that ends in transport failure increments the stored
RetryCounter to n = prior + 1; once n has reached 5 the poller enters the
Failed state carrying the message of the last thrown error, clears the
stored counter, and schedules neither a backoff nor a further poll (no 6th
attempt); otherwise it sleeps exactly 2 ^ n seconds of backoff and resumes
polling. -/
theorem c1_transport_failure_backoff (st : ProcessingState) (h : st.jobId ≠ "")
    (storage : Option Nat) (m : String) :
    (pollStatus (some st) storage (.thrown (some m))).retryWrite
        = some (storage.getD 0 + 1) ∧
    (storage.getD 0 + 1 ≥ 5 →
      (pollStatus (some st) storage (.thrown (some m))).errorSet = some m ∧
      (pollStatus (some st) storage (.thrown (some m))).scheduledNextMs = none ∧
      (pollStatus (some st) storage (.thrown (some m))).backoffWaitMs = none ∧
      (pollStatus (some st) storage (.thrown (some m))).storageAfter = none) ∧
    (storage.getD 0 + 1 < 5 →
      (pollStatus (some st) storage (.thrown (some m))).backoffWaitMs
          = some (2 ^ (storage.getD 0 + 1) * 1000) ∧
      (pollStatus (some st) storage (.thrown (some m))).scheduledNextMs = some 2000 ∧
      (pollStatus (some st) storage (.thrown (some m))).storageAfter
          = some (storage.getD 0 + 1)) := by
  by_cases h5 : storage.getD 0 + 1 ≥ 5 <;>
    simp [pollStatus, noEffects, h, h5]

/-- Witness for C1 at job id abc123, a stored counter of 1 and a thrown
error boom: the counter is written to 2 and the backoff is 4000 ms. -/
theorem c1_transport_failure_backoff_witness :
    (pollStatus (some sampleState) (some 1) (.thrown (some "boom"))).retryWrite
        = some 2 ∧
    (pollStatus (some sampleState) (some 1) (.thrown (some "boom"))).backoffWaitMs
        = some 4000 ∧
    (pollStatus (some sampleState) (some 1) (.thrown (some "boom"))).scheduledNextMs
        = some 2000 := by
  have h := c1_transport_failure_backoff sampleState (by decide) (some 1) "boom"
  exact ⟨h.1, (h.2.2 (by decide)).1, (h.2.2 (by decide)).2.1⟩

/-- C2 counterexample: with a prior stored RetryCounter of 3, a successful
poll cycle on an in-progress snapshot performs no counter write and leaves
the stored counter at 3, so a success does not reset the counter to 0. -/
theorem c2_success_reset_counterexample :
    (pollStatus (some sampleState) (some 3) (.ok samplePending)).retryWrite = none ∧
    (pollStatus (some sampleState) (some 3) (.ok samplePending)).storageAfter = some 3 ∧
    (pollStatus (some sampleState) (some 3) (.ok samplePending)).storageAfter ≠ some 0 := by
  decide

/-- C2 amended: a poll cycle whose fetch succeeds never writes the
RetryCounter and leaves the stored value unchanged, whatever its prior
value; the stored counter is cleared only by the transport-failure path on
reaching 5. -/
theorem c2_success_leaves_counter (st : ProcessingState) (h : st.jobId ≠ "")
    (storage : Option Nat) (data : JobData) :
    (pollStatus (some st) storage (.ok data)).retryWrite = none ∧
    (pollStatus (some st) storage (.ok data)).storageAfter = storage := by
  simp only [pollStatus]
  rw [if_neg h]
  split
  · split <;> exact ⟨rfl, rfl⟩
  · exact ⟨rfl, rfl⟩

/-- Witness for C2 amended at job id abc123, stored counter 3 and the
in-progress sample snapshot. -/
theorem c2_success_leaves_counter_witness :
    (pollStatus (some sampleState) (some 3) (.ok samplePending)).retryWrite = none ∧
    (pollStatus (some sampleState) (some 3) (.ok samplePending)).storageAfter = some 3 :=
  c2_success_leaves_counter sampleState (by decide) (some 3) samplePending

/-- C3 counterexample: at snapshot step 2 the stage with index 2 is
displayed as completed by the code, while the claimed formula (index equal
to step gives in-progress) requires in-progress. -/
theorem c3_stage_formula_counterexample :
    (stageStatuses 2).getD 2 .pending = StageStatus.completed ∧
    specStageStatus 2 2 = StageStatus.inProgress ∧
    (stageStatuses 2).getD 2 .pending ≠ specStageStatus 2 2 := by
  decide

/-- C3 amended: for snapshot step s in [0, 4] and stage index i in [0, 4],
the displayed status of stage i is completed when i ≤ s, in-progress when
i = s + 1, and pending when i > s + 1 — one stage ahead of the claimed
formula, with stage 0 always completed. -/
theorem c3_stage_status_shifted (s : Int) (i : Nat)
    (hs0 : 0 ≤ s) (hs4 : s ≤ 4) (hi : i < 5) :
    (stageStatuses s).getD i .pending =
      (if (i : Int) ≤ s then StageStatus.completed
       else if (i : Int) = s + 1 then StageStatus.inProgress
       else StageStatus.pending) := by
  interval_cases s <;> interval_cases i <;> decide

/-- Witness for C3 amended at step 1 and stage index 2: the stage one past
the step is in progress. -/
theorem c3_stage_status_shifted_witness :
    (stageStatuses 1).getD 2 .pending = StageStatus.inProgress := by
  have h := c3_stage_status_shifted 1 2 (by decide) (by decide) (by decide)
  rw [h]
  decide

/-- C4 counterexample: a snapshot with status error whose error field is
present but empty yields the generic fallback message rather than the
(empty) error field, so presence alone does not determine the message. -/
theorem c4_error_message_counterexample :
    sampleEmptyError.error = some "" ∧
    (pollStatus (some sampleState) none (.ok sampleEmptyError)).errorSet
        = some "An error occurred" ∧
    (pollStatus (some sampleState) none (.ok sampleEmptyError)).errorSet
        ≠ some "" := by
  decide

/-- C4 amended: on a successfully fetched snapshot with status error the
poller enters Failed and stops polling; the Failed message equals the
snapshot error field when that field is present and non-empty, and the
generic fallback message when it is absent or empty. -/
theorem c4_backend_error_message (st : ProcessingState) (h : st.jobId ≠ "")
    (storage : Option Nat) (data : JobData) (he : data.status = some "error") :
    (pollStatus (some st) storage (.ok data)).errorSet
        = some (jsOrStr data.error "An error occurred") ∧
    (∀ m : String, data.error = some m → m ≠ "" →
      (pollStatus (some st) storage (.ok data)).errorSet = some m) ∧
    ((data.error = none ∨ data.error = some "") →
      (pollStatus (some st) storage (.ok data)).errorSet
          = some "An error occurred") ∧
    (pollStatus (some st) storage (.ok data)).scheduledNextMs = none ∧
    (pollStatus (some st) storage (.ok data)).backoffWaitMs = none ∧
    (pollStatus (some st) storage (.ok data)).navigatedTo = none := by
  simp only [pollStatus]
  rw [if_neg h, if_pos (Or.inr he), if_pos he]
  refine ⟨rfl, ?_, ?_, rfl, rfl, rfl⟩
  · intro m hm hne
    simp [jsOrStr, hm, hne]
  · rintro (hm | hm) <;> simp [jsOrStr, hm]

/-- Witness for C4 amended at the backend-error sample snapshot: the
Failed message is disk full and no further poll is scheduled. -/
theorem c4_backend_error_message_witness :
    (pollStatus (some sampleState) none (.ok sampleBackendError)).errorSet
        = some "disk full" ∧
    (pollStatus (some sampleState) none (.ok sampleBackendError)).scheduledNextMs
        = none := by
  have h := c4_backend_error_message sampleState (by decide) none
    sampleBackendError rfl
  exact ⟨h.2.1 "disk full" rfl (by decide), h.2.2.2.1⟩

/-- C5: on a successfully fetched snapshot with status completed, the
poller navigates to the Results view handing over the spread navigation
state together with the questions-generated count, the topics-detected
count and the question preview from the snapshot, sets no error, and
schedules neither a backoff nor a further poll, so the poll cycle is never
invoked again by the poller after this termination. -/
theorem c5_completed_handoff (st : ProcessingState) (h : st.jobId ≠ "")
    (storage : Option Nat) (data : JobData)
    (hc : data.status = some "completed") :
    (pollStatus (some st) storage (.ok data)).navigatedTo =
      some (Nav.results
        { filename := st.filename
          questionLanguage := st.questionLanguage
          explanationLanguage := st.explanationLanguage
          numberOfQuestions := st.numberOfQuestions
          outputFormat := st.outputFormat
          jobId := st.jobId
          questionsGenerated := jsOrInt data.questions_generated 0
          topicsDetected := jsOrInt data.topics_detected 0
          questionsPreview := data.questions_preview.getD [] }) ∧
    (pollStatus (some st) storage (.ok data)).scheduledNextMs = none ∧
    (pollStatus (some st) storage (.ok data)).backoffWaitMs = none ∧
    (pollStatus (some st) storage (.ok data)).errorSet = none := by
  have hne : data.status ≠ some "error" := by rw [hc]; decide
  simp only [pollStatus]
  rw [if_neg h, if_pos (Or.inl hc), if_neg hne]
  exact ⟨rfl, rfl, rfl, rfl⟩

/-- Witness for C5 at the completed sample snapshot: the handoff carries
the 12 generated questions count, the 3 detected topics count and the
one-element preview, and nothing further is scheduled. -/
theorem c5_completed_handoff_witness :
    (pollStatus (some sampleState) none (.ok sampleCompleted)).navigatedTo =
      some (Nav.results
        { filename := "notes.pdf"
          questionLanguage := "en"
          explanationLanguage := "en"
          numberOfQuestions := "10"
          outputFormat := "pdf"
          jobId := "abc123"
          questionsGenerated := 12
          topicsDetected := 3
          questionsPreview := [sampleQuestion] }) ∧
    (pollStatus (some sampleState) none (.ok sampleCompleted)).scheduledNextMs
        = none := by
  have h := c5_completed_handoff sampleState (by decide) none sampleCompleted rfl
  exact ⟨h.1, h.2.1⟩

/-- C6: on a successfully fetched snapshot whose status is neither
completed nor error, the poller updates the displayed progress, step and
eta from the snapshot fields (falsy fields defaulting to 0) and schedules
the next poll cycle at the fixed 2000 ms delay, with no navigation, no
error and no backoff. -/
theorem c6_pending_update (st : ProcessingState) (h : st.jobId ≠ "")
    (storage : Option Nat) (data : JobData)
    (h1 : data.status ≠ some "completed") (h2 : data.status ≠ some "error") :
    (pollStatus (some st) storage (.ok data)).progressSet
        = some (jsOrInt data.progress 0) ∧
    (pollStatus (some st) storage (.ok data)).stepSet
        = some (jsOrInt data.step 0) ∧
    (pollStatus (some st) storage (.ok data)).etaSet
        = some (jsOrInt data.eta 0) ∧
    (pollStatus (some st) storage (.ok data)).scheduledNextMs = some 2000 ∧
    (pollStatus (some st) storage (.ok data)).navigatedTo = none ∧
    (pollStatus (some st) storage (.ok data)).errorSet = none ∧
    (pollStatus (some st) storage (.ok data)).backoffWaitMs = none := by
  have hor : ¬(data.status = some "completed" ∨ data.status = some "error") := by
    rintro (hx | hx)
    · exact h1 hx
    · exact h2 hx
  simp only [pollStatus]
  rw [if_neg h, if_neg hor]
  exact ⟨rfl, rfl, rfl, rfl, rfl, rfl, rfl⟩

/-- Witness for C6 at the spec scenario snapshot (in-progress, progress
40, step 2, eta 90): displayed progress 40, step 2, eta 90, next poll at
2000 ms. -/
theorem c6_pending_update_witness :
    (pollStatus (some sampleState) none (.ok samplePending)).progressSet
        = some 40 ∧
    (pollStatus (some sampleState) none (.ok samplePending)).stepSet
        = some 2 ∧
    (pollStatus (some sampleState) none (.ok samplePending)).etaSet
        = some 90 ∧
    (pollStatus (some sampleState) none (.ok samplePending)).scheduledNextMs
        = some 2000 := by
  have h := c6_pending_update sampleState (by decide) none samplePending
    (by decide) (by decide)
  exact ⟨h.1, h.2.1, h.2.2.1, h.2.2.2.1⟩

/-- C7: when no job id is available (no navigation state at all, or a
state with an empty job id), the poll cycle issues no fetch, navigates
back to the dashboard, schedules no backoff and no further poll, writes no
retry counter and sets no error; its outcome does not depend on the fetch
parameter at all. -/
theorem c7_missing_job_id (state : Option ProcessingState)
    (h : state = none ∨ ∃ st, state = some st ∧ st.jobId = "")
    (storage : Option Nat) (fetch : FetchResult) :
    (pollStatus state storage fetch).fetched = false ∧
    (pollStatus state storage fetch).navigatedTo = some Nav.dashboard ∧
    (pollStatus state storage fetch).scheduledNextMs = none ∧
    (pollStatus state storage fetch).backoffWaitMs = none ∧
    (pollStatus state storage fetch).retryWrite = none ∧
    (pollStatus state storage fetch).errorSet = none ∧
    (∀ f2 : FetchResult, pollStatus state storage fetch
        = pollStatus state storage f2) := by
  have e : ∀ f : FetchResult, pollStatus state storage f
      = { noEffects storage with navigatedTo := some Nav.dashboard } := by
    intro f
    rcases h with rfl | ⟨st, rfl, hj⟩
    · rfl
    · simp only [pollStatus]
      rw [if_pos hj]
  refine ⟨?_, ?_, ?_, ?_, ?_, ?_, ?_⟩ <;> simp [e, noEffects]

/-- Witness for C7 with no navigation state and a thrown fetch outcome:
no fetch is issued and the poller navigates to the dashboard. -/
theorem c7_missing_job_id_witness :
    (pollStatus none none (.thrown none)).fetched = false ∧
    (pollStatus none none (.thrown none)).navigatedTo = some Nav.dashboard := by
  have h := c7_missing_job_id none (Or.inl rfl) none (.thrown none)
  exact ⟨h.1, h.2.1⟩

/-- C8: the mount effect cleanup clears no timer (its body is empty and
the cleanup closures built inside the poll cycle are discarded with the
async result), so the 2000 ms poll timer scheduled by a cycle that
processed a pending snapshot, and the one scheduled by a backoff cycle
after a transport failure, both survive teardown; their callback is the
poll cycle itself, which fetches. -/
theorem c8_poll_timer_survives_teardown :
    timersAfterTeardown
        (pollStatus (some sampleState) none (.ok samplePending)) = [2000] ∧
    timersAfterTeardown
        (pollStatus (some sampleState) (some 1) (.thrown (some "network down")))
        = [2000] ∧
    effectCleanupClearedTimers = [] := by
  decide

/-- C9 counterexample: the Failed state reached through a backend-reported
error keeps the stored RetryCounter (here 3); the Retry click clears the
error and the transcript but leaves the stored counter at 3, not 0. -/
theorem c9_retry_counter_counterexample :
    (pollStatus (some sampleState) (some 3) (.ok sampleBackendError)).errorSet
        = some "disk full" ∧
    (pollStatus (some sampleState) (some 3) (.ok sampleBackendError)).storageAfter
        = some 3 ∧
    (retryClick sampleFailedComp).1.retryStorage = some 3 ∧
    (retryClick sampleFailedComp).1.retryStorage ≠ some 0 := by
  decide

/-- C9 amended: the Retry click from the Failed view clears the error,
clears the local transcript and re-enters polling, but performs no write
to the stored RetryCounter, which keeps its prior value. -/
theorem c9_retry_clears_error_and_logs (s : CompState) :
    (retryClick s).1.error = none ∧
    (retryClick s).1.logs = [] ∧
    (retryClick s).2 = true ∧
    (retryClick s).1.retryStorage = s.retryStorage :=
  ⟨rfl, rfl, rfl, rfl⟩

/-- C10: every completed snapshot is handed to the Results view, and each
of its questions_generated, topics_detected and questions_preview fields
that is absent is defaulted — independently of the others — to 0, 0 and
the empty list respectively in the handoff payload. -/
theorem c10_completed_defaults (st : ProcessingState) (h : st.jobId ≠ "")
    (storage : Option Nat) (data : JobData)
    (hc : data.status = some "completed") :
    (data.questions_generated = none →
      (navResultsPayload
        (pollStatus (some st) storage (.ok data)).navigatedTo).map
        (fun p => p.questionsGenerated) = some 0) ∧
    (data.topics_detected = none →
      (navResultsPayload
        (pollStatus (some st) storage (.ok data)).navigatedTo).map
        (fun p => p.topicsDetected) = some 0) ∧
    (data.questions_preview = none →
      (navResultsPayload
        (pollStatus (some st) storage (.ok data)).navigatedTo).map
        (fun p => p.questionsPreview) = some []) := by
  have hne : data.status ≠ some "error" := by rw [hc]; decide
  simp only [pollStatus]
  rw [if_neg h, if_pos (Or.inl hc), if_neg hne]
  refine ⟨?_, ?_, ?_⟩ <;> intro hx <;> simp [navResultsPayload, jsOrInt, hx]

/-- Witness for C10, at the bare completed sample snapshot (all three
fields absent) and at the mixed one (only topics_detected absent): each
absent field is defaulted in the payload. -/
theorem c10_completed_defaults_witness :
    (navResultsPayload
      (pollStatus (some sampleState) none
        (.ok sampleCompletedBare)).navigatedTo).map
      (fun p => p.questionsGenerated) = some 0 ∧
    (navResultsPayload
      (pollStatus (some sampleState) none
        (.ok sampleCompletedBare)).navigatedTo).map
      (fun p => p.questionsPreview) = some [] ∧
    (navResultsPayload
      (pollStatus (some sampleState) none
        (.ok sampleCompletedMixed)).navigatedTo).map
      (fun p => p.topicsDetected) = some 0 := by
  have h1 := c10_completed_defaults sampleState (by decide) none
    sampleCompletedBare rfl
  have h2 := c10_completed_defaults sampleState (by decide) none
    sampleCompletedMixed rfl
  exact ⟨h1.1 rfl, h1.2.2 rfl, h2.2.1 rfl⟩
